import Mathlib

/-!
Shallow embedding of the data pipeline of the solar-flare dashboard (`app.py`):
the CSV loader (`load_data`), the derived-field parsers, the filter pipeline
(date range, flare-class selection, high-activity tagging), and the
aggregate computations (statistics cards, daily rollup, distributions).

Machine reals are modelled as `ℚ`; a pandas `NaN` cell is modelled as
`none : Option ℚ` (every NaN in the source arises from a missing value,
never from arithmetic on finite values, so this is faithful).  A pandas
`DataFrame` is modelled as a schema-flag record plus a list of rows;
indexing a column that the schema lacks is a `KeyError`, modelled with
`Except String`.
-/

namespace SolarFlares

/-- A parsed UTC timestamp, as produced by `pd.to_datetime` with the strict
format `%Y-%m-%dT%H%M%SZ` (`app.py` line 26). -/
structure Timestamp where
  year : Nat
  month : Nat
  day : Nat
  hour : Nat
  minute : Nat
  second : Nat
deriving DecidableEq

/-- A calendar date, the `.dt.date` component of a timestamp (`app.py` line 29). -/
structure Date where
  year : Nat
  month : Nat
  day : Nat
deriving DecidableEq

def dateOf (t : Timestamp) : Date :=
  { year := t.year, month := t.month, day := t.day }

/-- An injective monotone key for comparing timestamps, standing in for the
linear order on instants that pandas uses for `Timestamp` comparison. -/
def tsKey (t : Timestamp) : Nat :=
  ((((t.year * 13 + t.month) * 32 + t.day) * 24 + t.hour) * 60 + t.minute) * 60 + t.second

def tsLe (a b : Timestamp) : Bool :=
  tsKey a ≤ tsKey b

/-- Character at index `i` of `l` with an out-of-range placeholder. -/
def chAt (l : List Char) (i : Nat) : Char :=
  l.getD i '?'

def digitVal (c : Char) : Nat := c.toNat - 48

def d2 (l : List Char) (i : Nat) : Nat :=
  10 * digitVal (chAt l i) + digitVal (chAt l (i + 1))

def d4 (l : List Char) (i : Nat) : Nat :=
  100 * d2 l i + d2 l (i + 2)

def allDigits (l : List Char) (idxs : List Nat) : Bool :=
  idxs.all (fun i => (chAt l i).isDigit)

/-- Shape test for the strict format `%Y-%m-%dT%H%M%SZ`: exactly 18
characters, separators in fixed positions, digits everywhere else. -/
def tsShape (l : List Char) : Bool :=
  decide (l.length = 18)
    && (chAt l 4 == '-') && (chAt l 7 == '-') && (chAt l 10 == 'T') && (chAt l 17 == 'Z')
    && allDigits l [0, 1, 2, 3, 5, 6, 8, 9, 11, 12, 13, 14, 15, 16]

/-- Field extraction from a shape-valid `YYYY-MM-DDTHHMMSSZ` token. -/
def tsFields (l : List Char) : Timestamp :=
  { year := d4 l 0, month := d2 l 5, day := d2 l 8
    hour := d2 l 11, minute := d2 l 13, second := d2 l 15 }

/-- Calendar-range validation performed by `strptime`. -/
def tsRangeOk (t : Timestamp) : Bool :=
  decide (1 ≤ t.month) && decide (t.month ≤ 12) && decide (1 ≤ t.day) && decide (t.day ≤ 31)
    && decide (t.hour ≤ 23) && decide (t.minute ≤ 59) && decide (t.second ≤ 59)

/-- `pd.to_datetime(s, format=compactIso)` on one cell: the string must be
exactly `YYYY-MM-DDTHHMMSSZ` with in-range calendar fields, else the parse
fails (`app.py` line 26).  Returns `none` on failure. -/
def parseTimestampStrict (s : String) : Option Timestamp :=
  if tsShape s.toList && tsRangeOk (tsFields s.toList) then
    some (tsFields s.toList)
  else none

theorem parseTimestampStrict_none_of_length (s : String)
    (h : s.length ≠ 18) : parseTimestampStrict s = none := by
  unfold parseTimestampStrict tsShape
  simp [h]

def digitChar (n : Nat) : Char := Char.ofNat (48 + n % 10)

def twoL (n : Nat) : List Char := [digitChar (n / 10), digitChar n]

def fourL (n : Nat) : List Char :=
  [digitChar (n / 1000), digitChar (n / 100), digitChar (n / 10), digitChar n]

/-- How `DataFrame.to_csv` serializes a tz-aware timestamp cell:
`YYYY-MM-DD HH:MM:SS+00:00` (25 characters). -/
def formatTimestampCsv (t : Timestamp) : String :=
  String.mk (fourL t.year ++ ['-'] ++ twoL t.month ++ ['-'] ++ twoL t.day ++ [' ']
    ++ twoL t.hour ++ [':'] ++ twoL t.minute ++ [':'] ++ twoL t.second
    ++ ['+', '0', '0', ':', '0', '0'])

theorem formatTimestampCsv_length (t : Timestamp) :
    (formatTimestampCsv t).length = 25 := by
  simp [formatTimestampCsv, String.length, twoL, fourL]

/-- One raw CSV row, restricted to the columns the dashboard reads.  A
numeric cell that failed numeric parsing, or an empty cell, is `none`
(pandas `NaN`); an empty string cell is `none` likewise. -/
structure RawRow where
  timestamp_utc : String
  xrs_b_flux : Option ℚ
  status : Option String
  flare_class : Option String
  integrated_flux : Option ℚ
deriving DecidableEq

/-- The parsed CSV: which recognized columns the header supplies, plus the
data rows.  When a flag is `false` the corresponding `RawRow` fields are
ignored (the column is simply not in the frame). -/
structure Csv where
  hasTimestamp : Bool
  hasFlux : Bool
  hasStatus : Bool
  hasFlareClass : Bool
  hasIntegratedFlux : Bool
  rows : List RawRow
deriving DecidableEq

/-- One row of the canonical in-memory table after `load_data`: parsed
timestamp, the raw measurement columns, the derived calendar columns
(`app.py` lines 29-33), the scientific-notation display column (line 36),
and the `is_high_activity` column that the filter pipeline adds later
(line 79), initialised `false` at load. -/
structure Row where
  timestamp : Timestamp
  xrs_b_flux : Option ℚ
  status : Option String
  flare_class : Option String
  integrated_flux : Option ℚ
  date : Date
  hour : Nat
  month : Nat
  year : Nat
  xrs_b_flux_sci : String
  is_high_activity : Bool
deriving DecidableEq

/-- The canonical table: the loaded rows plus the schema flags of the
optional columns (pandas keeps absent columns absent after load). -/
structure Table where
  hasStatus : Bool
  hasFlareClass : Bool
  hasIntegratedFlux : Bool
  rows : List Row
deriving DecidableEq

/-- Fuel-driven normalization of a positive rational to mantissa in
`[1, 10)` and exponent (the fuel far exceeds any exponent reachable from
the data). -/
def sciNorm : Nat → ℚ → Int → ℚ × Int
  | 0, q, e => (q, e)
  | fuel + 1, q, e =>
    if q < 1 then sciNorm fuel (q * 10) (e - 1)
    else if 10 ≤ q then sciNorm fuel (q / 10) (e + 1)
    else (q, e)

def fmtExpDigits (a : Nat) : List Char :=
  if a < 100 then [digitChar (a / 10), digitChar a]
  else [digitChar (a / 100), digitChar (a / 10), digitChar a]

/-- Python `format(x, ".2e")`: NaN renders as the string `nan`; a finite
value renders in scientific notation with a two-digit mantissa fraction.
Ties round half away from zero here, a harmless approximation of the CPython
round-half-even rule (no stated property depends on tie digits). -/
def fmtSci2e : Option ℚ → String
  | none => "nan"
  | some q =>
    if q = 0 then "0.00e+00"
    else
      let m0 := sciNorm 400 |q| 0
      let c0 : Int := round (m0.1 * 100)
      let c : Int := if c0 ≥ 1000 then 100 else c0
      let e : Int := if c0 ≥ 1000 then m0.2 + 1 else m0.2
      let sgn : List Char := if q < 0 then ['-'] else []
      String.mk (sgn ++ [digitChar (c.toNat / 100), '.', digitChar (c.toNat / 10), digitChar c.toNat]
        ++ ['e'] ++ (if e < 0 then ['-'] else ['+']) ++ fmtExpDigits e.natAbs)

/-- The per-row work of `load_data`: parse the timestamp strictly and derive
the calendar and display columns.  `None` timestamps never reach here:
`pd.to_datetime(errors=raise)` aborts the load first, see `parseRows`. -/
def mkRow (r : RawRow) (t : Timestamp) : Row :=
  { timestamp := t
    xrs_b_flux := r.xrs_b_flux
    status := r.status
    flare_class := r.flare_class
    integrated_flux := r.integrated_flux
    date := dateOf t
    hour := t.hour
    month := t.month
    year := t.year
    xrs_b_flux_sci := fmtSci2e r.xrs_b_flux
    is_high_activity := false }

/-- The message of the `ValueError` that `pd.to_datetime` raises on an
unparseable cell (the concrete offending value it interpolates is
abstracted away). -/
def tsFormatError : String :=
  "ValueError: time data does not match format %Y-%m-%dT%H%M%SZ"

/-- The timestamp-column conversion of `app.py` line 26: `pd.to_datetime`
with default `errors=raise` fails the whole column (hence the whole load)
at the first unparseable cell. -/
def parseRows : List RawRow → Except String (List Row)
  | [] => Except.ok []
  | r :: rs =>
    match parseTimestampStrict r.timestamp_utc with
    | none => Except.error tsFormatError
    | some t =>
      match parseRows rs with
      | Except.error e => Except.error e
      | Except.ok l => Except.ok (mkRow r t :: l)

/-- `load_data` (`app.py` lines 20-38) over the parsed CSV: indexing the
timestamp column raises `KeyError` if it is absent, the strict datetime
conversion raises on any unparseable cell, the flux column is indexed for
the scientific-notation display column, and the optional columns pass
through untouched. -/
def load_data (c : Csv) : Except String Table :=
  if c.hasTimestamp = false then Except.error "KeyError: timestamp_utc"
  else
    match parseRows c.rows with
    | Except.error e => Except.error e
    | Except.ok rows =>
      if c.hasFlux = false then Except.error "KeyError: xrs_b_flux"
      else
        Except.ok
          { hasStatus := c.hasStatus
            hasFlareClass := c.hasFlareClass
            hasIntegratedFlux := c.hasIntegratedFlux
            rows := rows }

theorem parseRows_error_of_bad (rs : List RawRow)
    (h : ∃ r ∈ rs, parseTimestampStrict r.timestamp_utc = none) :
    ∃ e, parseRows rs = Except.error e := by
  induction rs with
  | nil => simp at h
  | cons r rs ih =>
    rcases h with ⟨x, hx, hbad⟩
    rcases List.mem_cons.mp hx with rfl | hx
    · exact ⟨tsFormatError, by simp [parseRows, hbad]⟩
    · cases hr : parseTimestampStrict r.timestamp_utc with
      | none => exact ⟨tsFormatError, by simp [parseRows, hr]⟩
      | some t =>
        rcases ih ⟨x, hx, hbad⟩ with ⟨e, he⟩
        exact ⟨e, by simp [parseRows, hr, he]⟩

theorem parseRows_ok_length (rs : List RawRow) (l : List Row)
    (h : parseRows rs = Except.ok l) : l.length = rs.length := by
  induction rs generalizing l with
  | nil => simp [parseRows] at h; simp [← h]
  | cons r rs ih =>
    rw [parseRows] at h
    cases hr : parseTimestampStrict r.timestamp_utc with
    | none => rw [hr] at h; exact absurd h (by simp)
    | some t =>
      rw [hr] at h
      cases hrec : parseRows rs with
      | error e => rw [hrec] at h; exact absurd h (by simp)
      | ok l2 =>
        rw [hrec] at h
        have := ih l2 hrec
        simp at h
        simp [← h, this]

theorem parseRows_ok_of_all (rs : List RawRow)
    (h : ∀ r ∈ rs, (parseTimestampStrict r.timestamp_utc).isSome = true) :
    ∃ l, parseRows rs = Except.ok l := by
  induction rs with
  | nil => exact ⟨[], rfl⟩
  | cons r rs ih =>
    have hr := h r (List.mem_cons_self r rs)
    cases hp : parseTimestampStrict r.timestamp_utc with
    | none => rw [hp] at hr; simp at hr
    | some t =>
      rcases ih (fun x hx => h x (List.mem_cons_of_mem r hx)) with ⟨l, hl⟩
      exact ⟨mkRow r t :: l, by simp [parseRows, hp, hl]⟩

/-- The five recognized flare-class letters. -/
def classLetters : List Char := ['A', 'B', 'C', 'M', 'X']

/-- Trim surrounding whitespace and upper-case, as Python
`raw.strip().upper()` does on an ASCII class token. -/
def normalizeToken (s : String) : List Char :=
  (((s.toList.dropWhile Char.isWhitespace).reverse.dropWhile Char.isWhitespace).reverse).map
    Char.toUpper

/-- Value of a nonempty all-digit run, `none` otherwise. -/
def digitsNat (l : List Char) : Option Nat :=
  if l ≠ [] ∧ l.all Char.isDigit then
    some (l.foldl (fun a c => 10 * a + digitVal c) 0)
  else none

/-- Split at the first dot, if any. -/
def splitDot : List Char → List Char × Option (List Char)
  | [] => ([], none)
  | c :: cs =>
    if c = '.' then ([], some cs)
    else
      let p := splitDot cs
      (c :: p.1, p.2)

/-- An unsigned decimal numeral (integer or decimal, no sign, no exponent):
`8`, `1.9`; rejects `.` , `1.`, `.5`, `1.2.3`, signs and exponents. -/
def parseMagnitude (l : List Char) : Option ℚ :=
  match splitDot l with
  | (ip, none) => (digitsNat ip).map (fun n => (n : ℚ))
  | (ip, some fp) =>
    match digitsNat ip, digitsNat fp with
    | some n, some f => some ((n : ℚ) + (f : ℚ) / ((10 : ℚ) ^ fp.length))
    | _, _ => none

/-- Pattern match on a normalized token: one recognized letter optionally
followed by an unsigned decimal magnitude; anything else degrades to
`(absent, NaN)`. -/
def parse_class_chars : List Char → Option Char × Option ℚ
  | [] => (none, none)
  | c :: rest =>
    if c ∈ classLetters then
      if rest = [] then (some c, none)
      else
        match parseMagnitude rest with
        | some q => (some c, some q)
        | none => (none, none)
    else (none, none)

/-- Modelled from the spec: `parse_flare_class` belongs to the second
dashboard variant of this repository, whose file is not under `src/`; this
definition follows the words of the spec (section 4.2): absent input yields
`(absent, NaN)`; otherwise trim and upper-case, then one letter from
`{A,B,C,M,X}` optionally followed by an unsigned decimal magnitude; any
non-matching string yields `(absent, NaN)`; the function is pure and total
and never raises.  `NaN` is modelled as `none`. -/
def parse_flare_class (raw : Option String) : Option Char × Option ℚ :=
  match raw with
  | none => (none, none)
  | some s => parse_class_chars (normalizeToken s)

/-- The derived `flare_class_letter` field of the spec data model of a record (section 3),
via `parse_flare_class` on the raw class token. -/
def flare_class_letter (r : Row) : Option Char :=
  (parse_flare_class r.flare_class).1

theorem parse_class_chars_letter_sound (l : List Char) (c : Char)
    (h : (parse_class_chars l).1 = some c) : c ∈ classLetters := by
  cases l with
  | nil => simp [parse_class_chars] at h
  | cons a rest =>
    rw [parse_class_chars] at h
    by_cases ha : a ∈ classLetters
    · rw [if_pos ha] at h
      by_cases hr : rest = ([] : List Char)
      · rw [if_pos hr] at h
        simp at h
        exact h ▸ ha
      · rw [if_neg hr] at h
        cases hm : parseMagnitude rest with
        | none => rw [hm] at h; simp at h
        | some q => rw [hm] at h; simp at h; exact h ▸ ha
    · rw [if_neg ha] at h
      simp at h

/-- The date-range clause (`app.py` lines 61-62): boolean-mask selection of
rows whose timestamp lies in the inclusive range; returns a fresh frame. -/
def date_filter (a b : Timestamp) (view : List Row) : List Row :=
  view.filter (fun r => tsLe a r.timestamp && tsLe r.timestamp b)

/-- The flare-class clause (`app.py` lines 68-69): `All` leaves the frame
untouched; otherwise boolean-mask selection on equality of the raw
`flare_class` cell with the selected value (a `NaN` cell compares unequal). -/
def class_filter (sel : String) (view : List Row) : List Row :=
  if sel = "All" then view
  else view.filter (fun r => r.flare_class == some sel)

/-- The `is_high_activity` cell of one row (`app.py` line 79): pandas
`NaN > threshold` is `False`. -/
def tagRow (thr : ℚ) (r : Row) : Row :=
  { r with
    is_high_activity :=
      match r.xrs_b_flux with
      | none => false
      | some f => decide (thr < f) }

/-- The high-activity tagging step (`app.py` line 79): the derived boolean
column `df_filtered.xrs_b_flux > flux_threshold` is attached to every row;
no row is removed. -/
def tag_high_activity (thr : ℚ) (view : List Row) : List Row :=
  view.map (tagRow thr)

/-- Modelled from the spec: the `min_flux` clause belongs to the second
dashboard variant, whose file is not under `src/`; per the spec (section
4.3) it keeps exactly the records with `raw_flux >= min_flux`, and records
with absent flux are excluded while the clause is active. -/
def min_flux_filter (m : ℚ) (view : List Row) : List Row :=
  view.filter (fun r =>
    match r.xrs_b_flux with
    | none => false
    | some f => decide (m ≤ f))

/-- pandas `Series.max` with NaN skipped: maximum of the present values,
`NaN` (here `none`) when no value is present. -/
def maxQ : List ℚ → Option ℚ
  | [] => none
  | x :: xs => some (xs.foldl max x)

/-- pandas `Series.mean` with NaN skipped: `NaN` (here `none`) on an empty
series. -/
def meanQ (l : List ℚ) : Option ℚ :=
  if l.length = 0 then none else some (l.sum / (l.length : ℚ))

/-- The bundle shown by the statistics cards (`app.py` lines 89-118).
Percentages and means that evaluate to NaN in Python (numpy `0/0`, mean of
an empty series) are `none`.  (`len(df_filtered)/len(df)` with an empty
canonical table would raise `ZeroDivisionError`; it is modelled as `none`
and is unreachable: the canonical CSV of the dashboard is nonempty, and every
stated property assumes a nonempty canonical table.) -/
structure AggBundle where
  totalRecords : Nat
  totalPct : Option ℚ
  highActivity : Nat
  highActivityPct : Option ℚ
  eventCount : Nat
  avgFlux : Option ℚ
deriving DecidableEq

/-- The statistics-cards computation (`app.py` lines 89-118) over the
canonical table `full` and the filtered view `view`. -/
def computeAggregates (full view : List Row) : AggBundle :=
  { totalRecords := view.length
    totalPct :=
      if full.length = 0 then none
      else some ((view.length : ℚ) / (full.length : ℚ) * 100)
    highActivity := (view.filter (fun r => r.is_high_activity)).length
    highActivityPct :=
      if view.length = 0 then none
      else some (((view.filter (fun r => r.is_high_activity)).length : ℚ)
        / (view.length : ℚ) * 100)
    eventCount := (view.filter (fun r => r.status.isSome)).length
    avgFlux := meanQ (view.filterMap (fun r => r.xrs_b_flux)) }

/-- One row of the daily rollup (`app.py` lines 231-236).  Note pandas
`count` aggregates the non-null cells of the `xrs_b_flux` column, not the
row count of the group. -/
structure DayStat where
  date : Date
  max_flux : Option ℚ
  avg_flux : Option ℚ
  total_minutes : Nat
  high_activity_minutes : Nat
deriving DecidableEq

/-- The distinct group keys of `df_filtered.groupby(date)`.  (pandas sorts
the keys ascending; key order is irrelevant to every stated property, so
first-occurrence order is used here.) -/
def groupDates (view : List Row) : List Date :=
  (view.map (fun r => r.date)).dedup

/-- The aggregate row of one date group (`app.py` lines 231-236):
`max`/`mean`/`count` of the `xrs_b_flux` cells of the group with NaN skipped,
and the sum of the boolean `is_high_activity` column. -/
def statFor (view : List Row) (d : Date) : DayStat :=
  let g := view.filter (fun r => r.date = d)
  let fluxes := g.filterMap (fun r => r.xrs_b_flux)
  { date := d
    max_flux := maxQ fluxes
    avg_flux := meanQ fluxes
    total_minutes := fluxes.length
    high_activity_minutes := (g.filter (fun r => r.is_high_activity)).length }

/-- The daily rollup `daily_stats` (`app.py` lines 231-236): one aggregate
row per distinct date occurring in the filtered view. -/
def daily_stats (view : List Row) : List DayStat :=
  (groupDates view).map (statFor view)

/-- `Series.value_counts()`: occurrence count per distinct present value,
NaN cells dropped.  (pandas orders by descending count; order is
irrelevant to every stated property.) -/
def value_counts (l : List String) : List (String × Nat) :=
  l.dedup.map (fun s => (s, (l.filter (fun x => x = s)).length))

/-- The flare-class pie-chart distribution (`app.py` line 206). -/
def class_distribution (view : List Row) : List (String × Nat) :=
  value_counts (view.filterMap (fun r => r.flare_class))

/-- The event-status bar-chart distribution (`app.py` line 282). -/
def status_distribution (view : List Row) : List (String × Nat) :=
  value_counts (view.filterMap (fun r => r.status))

/-- The flare-class menu options (`app.py` line 65):
`["All"] + sorted(df["flare_class"].dropna().unique())`; indexing the
column raises `KeyError` when the CSV lacked it.  (The sort order of the menu
is irrelevant to every stated property and is omitted.) -/
def flare_class_options (t : Table) : Except String (List String) :=
  if t.hasFlareClass = false then Except.error "KeyError: flare_class"
  else Except.ok ("All" :: (t.rows.filterMap (fun r => r.flare_class)).dedup)

/-- The detected-events metric (`app.py` line 105):
`df_filtered["status"].notna().sum()`; raises `KeyError` when the CSV
lacked the status column. -/
def status_event_count (t : Table) : Except String Nat :=
  if t.hasStatus = false then Except.error "KeyError: status"
  else Except.ok ((t.rows.filter (fun r => r.status.isSome)).length)

/-- The data-explorer column selection (`app.py` line 311): indexing
`[[timestamp_utc, xrs_b_flux, status, flare_class, integrated_flux]]`
followed by `.head(100)`; raises `KeyError` when any selected column is
absent. -/
def explorer_sample (t : Table) :
    Except String (List (Timestamp × Option ℚ × Option String × Option String × Option ℚ)) :=
  if t.hasStatus && t.hasFlareClass && t.hasIntegratedFlux then
    Except.ok ((t.rows.map (fun r =>
      (r.timestamp, r.xrs_b_flux, r.status, r.flare_class, r.integrated_flux))).take 100)
  else Except.error "KeyError: columns not in index"

/-- One exported CSV row (`app.py` line 318, `df_filtered.to_csv`),
restricted to the columns the loader reads back: the tz-aware timestamp
cell serializes in the default pandas text form, the other cells pass
through. -/
def export_row (r : Row) : RawRow :=
  { timestamp_utc := formatTimestampCsv r.timestamp
    xrs_b_flux := r.xrs_b_flux
    status := r.status
    flare_class := r.flare_class
    integrated_flux := r.integrated_flux }

/-- The exported CSV of a filtered view (`app.py` lines 316-321): every
column is written, so every recognized column is present in the export. -/
def export_csv (view : List Row) : Csv :=
  { hasTimestamp := true, hasFlux := true, hasStatus := true
    hasFlareClass := true, hasIntegratedFlux := true
    rows := view.map export_row }

/-- Re-loading the exported bytes through the loader of the repository. -/
def reload_export (view : List Row) : Except String Table :=
  load_data (export_csv view)

/-- The user-chosen filter configuration of the sidebar controls. -/
structure FilterConfig where
  dateStart : Timestamp
  dateEnd : Timestamp
  selected_flare : String
  flux_threshold : ℚ

/-- The filter pipeline (`app.py` lines 60-79) with pandas object identity
made explicit: a store of frames addressed by index, index 0 holding the
canonical table.  Boolean-mask selection (`df[mask]`) allocates a fresh
frame; the `is_high_activity` column assignment (line 79) writes in place
to the frame `df_filtered` names at that moment.  Returns the final store
and the index `df_filtered` refers to. -/
def run_filter_pipeline (df : List Row) (cfg : FilterConfig) :
    List (List Row) × Nat :=
  let v1 := date_filter cfg.dateStart cfg.dateEnd df
  let s1 := [df, v1]
  let p :=
    if cfg.selected_flare = "All" then (s1, 1)
    else (s1 ++ [class_filter cfg.selected_flare v1], 2)
  let v := p.1.getD p.2 []
  (p.1.set p.2 (tag_high_activity cfg.flux_threshold v), p.2)

theorem le_foldl_max (xs : List ℚ) (a : ℚ) : a ≤ xs.foldl max a := by
  induction xs generalizing a with
  | nil => exact le_refl a
  | cons x xs ih => exact le_trans (le_max_left a x) (ih (max a x))

theorem mem_le_foldl_max (xs : List ℚ) (a y : ℚ) (hy : y ∈ xs) :
    y ≤ xs.foldl max a := by
  induction xs generalizing a with
  | nil => simp at hy
  | cons x xs ih =>
    rcases List.mem_cons.mp hy with rfl | hy
    · exact le_trans (le_max_right a y) (le_foldl_max xs (max a y))
    · exact ih (max a x) hy

theorem foldl_max_mem (xs : List ℚ) (a : ℚ) :
    xs.foldl max a = a ∨ xs.foldl max a ∈ xs := by
  induction xs generalizing a with
  | nil => left; rfl
  | cons x xs ih =>
    rw [List.foldl_cons]
    rcases ih (max a x) with h | h
    · rw [h]
      rcases max_choice a x with h2 | h2
      · left; exact h2
      · right; rw [h2]; exact List.mem_cons_self x xs
    · right; exact List.mem_cons_of_mem x h

theorem maxQ_spec (l : List ℚ) (m : ℚ) (h : maxQ l = some m) :
    m ∈ l ∧ ∀ y ∈ l, y ≤ m := by
  cases l with
  | nil => simp [maxQ] at h
  | cons x xs =>
    rw [maxQ] at h
    have hm : m = xs.foldl max x := by simpa using h.symm
    subst hm
    constructor
    · rcases foldl_max_mem xs x with h2 | h2
      · rw [h2]; exact List.mem_cons_self x xs
      · exact List.mem_cons_of_mem x h2
    · intro y hy
      rcases List.mem_cons.mp hy with rfl | hy
      · exact le_foldl_max xs y
      · exact mem_le_foldl_max xs x y hy

theorem maxQ_eq_none (l : List ℚ) (h : maxQ l = none) : l = [] := by
  cases l with
  | nil => rfl
  | cons x xs => simp [maxQ] at h

/-- C1: for every input (absent or any string) `parse_flare_class` returns
exactly one `(letter, magnitude)` pair and never raises (it is a total Lean
function); the six specified example inputs produce the specified outputs,
and a returned letter is always one of `A, B, C, M, X`. -/
theorem c1_parse_flare_class_total :
    parse_flare_class none = (none, none) ∧
    parse_flare_class (some "C1.9") = (some 'C', some ((19 : ℚ) / 10)) ∧
    parse_flare_class (some "B8") = (some 'B', some (8 : ℚ)) ∧
    parse_flare_class (some "M") = (some 'M', none) ∧
    parse_flare_class (some "Z9") = (none, none) ∧
    parse_flare_class (some "") = (none, none) ∧
    (∀ s c, (parse_flare_class (some s)).1 = some c → c ∈ classLetters) := by
  refine ⟨rfl, ?_, ?_, ?_, ?_, ?_, ?_⟩
  · have hn : normalizeToken "C1.9" = ['C', '1', '.', '9'] := by decide
    have hs : splitDot ['1', '.', '9'] = (['1'], some ['9']) := by decide
    have h1 : digitsNat ['1'] = some 1 := by decide
    have h9 : digitsNat ['9'] = some 9 := by decide
    simp [parse_flare_class, hn, parse_class_chars, classLetters, parseMagnitude, hs, h1, h9]
    norm_num
  · have hn : normalizeToken "B8" = ['B', '8'] := by decide
    have hs : splitDot ['8'] = (['8'], none) := by decide
    have h8 : digitsNat ['8'] = some 8 := by decide
    simp [parse_flare_class, hn, parse_class_chars, classLetters, parseMagnitude, hs, h8]
  · have hn : normalizeToken "M" = ['M'] := by decide
    simp [parse_flare_class, hn, parse_class_chars, classLetters]
  · have hn : normalizeToken "Z9" = ['Z', '9'] := by decide
    simp [parse_flare_class, hn, parse_class_chars, classLetters]
  · have hn : normalizeToken "" = [] := by decide
    simp [parse_flare_class, hn, parse_class_chars]
  · intro s c h
    exact parse_class_chars_letter_sound (normalizeToken s) c h

theorem c1_witness : 'C' ∈ classLetters :=
  c1_parse_flare_class_total.2.2.2.2.2.2 "C1.9" 'C' (by decide)

/-- Sample canonical-table row used by the concrete instances below. -/
def row0 : Row :=
  { timestamp := ⟨2022, 9, 24, 0, 0, 0⟩
    xrs_b_flux := none
    status := none
    flare_class := none
    integrated_flux := none
    date := ⟨2022, 9, 24⟩
    hour := 0
    month := 9
    year := 2022
    xrs_b_flux_sci := "nan"
    is_high_activity := false }

/-- Sample raw CSV row with a well-formed compact-ISO timestamp. -/
def goodRaw : RawRow :=
  { timestamp_utc := "2022-09-24T000000Z", xrs_b_flux := none, status := none
    flare_class := none, integrated_flux := none }

/-- Sample raw CSV row with an unparseable timestamp. -/
def badRaw : RawRow :=
  { goodRaw with timestamp_utc := "not-a-timestamp" }

/-- A full-schema CSV whose rows all parse. -/
def csvGood : Csv := ⟨true, true, true, true, true, [goodRaw]⟩

/-- A full-schema CSV with one good and one bad timestamp. -/
def csvMixed : Csv := ⟨true, true, true, true, true, [goodRaw, badRaw]⟩

/-- C2, counterexample: on a zero-row view the aggregates do return zero
counts, but the mean-flux metric is NaN and the card renders the string
`nan` as its value (Python `format(nan, ".2e")`), and the high-activity
percentage is NaN as well — not the explicit no-data sentinels the spec
asserts. -/
theorem c2_counterexample :
    (computeAggregates [row0] []).avgFlux = none ∧
    fmtSci2e (computeAggregates [row0] []).avgFlux = "nan" ∧
    (computeAggregates [row0] []).highActivityPct = none :=
  ⟨rfl, rfl, rfl⟩

/-- C2, amended: on a zero-row view no aggregate raises and every count is
zero, the daily rollup and both distributions are empty, and the
high-activity percentage is NaN; but the mean flux is NaN rendered as the
string `nan` in its metric card, not an explicit no-data sentinel. -/
theorem c2_empty_view_aggregates_amended (full : List Row)
    (h : full.length ≠ 0) :
    computeAggregates full [] =
      { totalRecords := 0, totalPct := some 0, highActivity := 0
        highActivityPct := none, eventCount := 0, avgFlux := none } ∧
    daily_stats [] = [] ∧
    class_distribution [] = [] ∧
    status_distribution [] = [] ∧
    fmtSci2e (computeAggregates full []).avgFlux = "nan" := by
  refine ⟨?_, rfl, rfl, rfl, rfl⟩
  simp [computeAggregates, meanQ, h]

theorem c2_witness :
    computeAggregates [row0] [] =
      { totalRecords := 0, totalPct := some 0, highActivity := 0
        highActivityPct := none, eventCount := 0, avgFlux := none } :=
  (c2_empty_view_aggregates_amended [row0] (by decide)).1

/-- C3, counterexample: a load whose rows all parse succeeds, but adding a
single row with an unparseable timestamp makes the whole load fail with a
`ValueError` — the bad row is not silently excluded. -/
theorem c3_counterexample :
    (∃ t, load_data csvGood = Except.ok t) ∧
    load_data csvMixed = Except.error tsFormatError :=
  ⟨⟨_, rfl⟩, rfl⟩

/-- C3, amended: an unparseable timestamp value on any row aborts the whole
load with an error (`pd.to_datetime` defaults to `errors=raise`); rows are
never individually dropped, and a successful load retains exactly one
record per input row. -/
theorem c3_load_abort_amended (c : Csv) :
    ((∃ r ∈ c.rows, parseTimestampStrict r.timestamp_utc = none) →
      ∃ e, load_data c = Except.error e) ∧
    (∀ t, load_data c = Except.ok t → t.rows.length = c.rows.length) := by
  constructor
  · intro h
    rcases parseRows_error_of_bad c.rows h with ⟨e, he⟩
    by_cases ht : c.hasTimestamp = false
    · exact ⟨"KeyError: timestamp_utc", by simp [load_data, ht]⟩
    · exact ⟨e, by simp [load_data, ht, he]⟩
  · intro t ht
    unfold load_data at ht
    by_cases h1 : c.hasTimestamp = false
    · simp [h1] at ht
    · rw [if_neg h1] at ht
      cases hp : parseRows c.rows with
      | error e => rw [hp] at ht; exact absurd ht (by simp)
      | ok l =>
        rw [hp] at ht
        dsimp only at ht
        by_cases h2 : c.hasFlux = false
        · rw [if_pos h2] at ht; exact absurd ht (by simp)
        · rw [if_neg h2] at ht
          have hteq : t.rows = l := by
            have h3 := Except.ok.inj ht
            rw [← h3]
          rw [hteq]
          exact parseRows_ok_length c.rows l hp

theorem c3_witness : ∃ e, load_data csvMixed = Except.error e :=
  (c3_load_abort_amended csvMixed).1 ⟨badRaw, by decide, by decide⟩

/-- Sample row whose raw class token is exactly the letter `C`. -/
def rowC : Row := { row0 with flare_class := some "C" }

/-- Sample row whose raw class token is `C1.9` (derived letter `C`). -/
def rowC19 : Row := { row0 with flare_class := some "C1.9" }

/-- C4, counterexample: with the specific selection `C`, the record whose
derived `flare_class_letter` is `C` but whose raw token is `C1.9` is
dropped — the clause compares the full raw token, not the derived letter. -/
theorem c4_counterexample :
    class_filter "C" [rowC, rowC19] = [rowC] ∧
    flare_class_letter rowC19 = some 'C' ∧
    rowC19 ∉ class_filter "C" [rowC, rowC19] := by
  refine ⟨by decide, by decide, by decide⟩

/-- C4, amended: when the class filter is `All` the clause removes no
records; when it is a specific selected value, exactly the records whose
raw `flare_class` token equals that value are kept (full-token equality,
not derived-letter membership); the single-choice selector offers no
set-of-letters case. -/
theorem c4_class_filter_amended (sel : String) (view : List Row) :
    (sel = "All" → class_filter sel view = view) ∧
    (sel ≠ "All" →
      ∀ r, r ∈ class_filter sel view ↔ r ∈ view ∧ r.flare_class = some sel) := by
  constructor
  · intro h
    simp [class_filter, h]
  · intro h r
    simp [class_filter, h, List.mem_filter]

theorem c4_witness :
    class_filter "All" [rowC, rowC19] = [rowC, rowC19] ∧
    (rowC19 ∈ class_filter "C1.9" [rowC, rowC19] ↔
      rowC19 ∈ [rowC, rowC19] ∧ rowC19.flare_class = some "C1.9") :=
  ⟨(c4_class_filter_amended "All" [rowC, rowC19]).1 rfl,
    (c4_class_filter_amended "C1.9" [rowC, rowC19]).2 (by decide) rowC19⟩

/-- A CSV carrying only the required timestamp and flux columns. -/
def csvNoOpt : Csv := ⟨true, true, false, false, false, [goodRaw]⟩

/-- The canonical table that loading `csvNoOpt` produces. -/
def tableNoOpt : Table :=
  ⟨false, false, false, [mkRow goodRaw ⟨2022, 9, 24, 0, 0, 0⟩]⟩

/-- C5, counterexample: loading a source that lacks the optional columns
succeeds as far as `load_data` goes, but the absence is not represented as
"column absent": the flare-class menu, the detected-events metric and the
data explorer each index the missing column unconditionally and raise a
`KeyError`. -/
theorem c5_counterexample :
    load_data csvNoOpt = Except.ok tableNoOpt ∧
    flare_class_options tableNoOpt = Except.error "KeyError: flare_class" ∧
    status_event_count tableNoOpt = Except.error "KeyError: status" ∧
    explorer_sample tableNoOpt = Except.error "KeyError: columns not in index" :=
  ⟨rfl, rfl, rfl, rfl⟩

/-- C5, amended: `load_data` itself succeeds when the status, class and
integrated-flux columns are absent (it touches only the timestamp and flux
columns), but no "column absent" representation exists downstream: the
dashboard blocks that index those columns raise a `KeyError` because of
their absence. -/
theorem c5_optional_columns_amended (c : Csv)
    (h1 : c.hasTimestamp = true) (h2 : c.hasFlux = true)
    (h3 : c.hasStatus = false) (h4 : c.hasFlareClass = false)
    (h5 : c.hasIntegratedFlux = false)
    (h6 : ∀ r ∈ c.rows, (parseTimestampStrict r.timestamp_utc).isSome = true) :
    ∃ t, load_data c = Except.ok t ∧
      flare_class_options t = Except.error "KeyError: flare_class" ∧
      status_event_count t = Except.error "KeyError: status" ∧
      explorer_sample t = Except.error "KeyError: columns not in index" := by
  rcases parseRows_ok_of_all c.rows h6 with ⟨l, hl⟩
  refine ⟨⟨c.hasStatus, c.hasFlareClass, c.hasIntegratedFlux, l⟩, ?_, ?_, ?_, ?_⟩
  · simp [load_data, h1, h2, hl]
  · simp [flare_class_options, h4]
  · simp [status_event_count, h3]
  · simp [explorer_sample, h3, h4, h5]

theorem c5_witness :
    ∃ t, load_data csvNoOpt = Except.ok t ∧
      flare_class_options t = Except.error "KeyError: flare_class" ∧
      status_event_count t = Except.error "KeyError: status" ∧
      explorer_sample t = Except.error "KeyError: columns not in index" :=
  c5_optional_columns_amended csvNoOpt rfl rfl rfl rfl rfl (by decide)

/-- A one-row filtered view for the export round trip. -/
def view6 : List Row := [mkRow goodRaw ⟨2022, 9, 24, 0, 0, 0⟩]

/-- C6, counterexample: re-loading the export of a concrete one-row view
does not yield a table of the same row count — the load aborts with a
`ValueError`, because `to_csv` writes the parsed timestamp as
`2022-09-24 00:00:00+00:00`, which the strict
`%Y-%m-%dT%H%M%SZ` parse of the loader rejects. -/
theorem c6_counterexample :
    reload_export view6 = Except.error tsFormatError :=
  rfl

/-- C6, amended: the export itself preserves the row count and the
non-derived field values as CSV fields, but re-loading the exported bytes
through `load_data` fails for every non-empty view: the exported timestamp
text does not match the strict compact-ISO format of the loader. -/
theorem c6_round_trip_amended (view : List Row) :
    (export_csv view).rows.length = view.length ∧
    (export_csv view).rows.map (fun r => r.xrs_b_flux) =
      view.map (fun r => r.xrs_b_flux) ∧
    (export_csv view).rows.map (fun r => r.status) = view.map (fun r => r.status) ∧
    (export_csv view).rows.map (fun r => r.flare_class) =
      view.map (fun r => r.flare_class) ∧
    (export_csv view).rows.map (fun r => r.integrated_flux) =
      view.map (fun r => r.integrated_flux) ∧
    (view ≠ [] → ∃ e, reload_export view = Except.error e) := by
  refine ⟨by simp [export_csv], by simp [export_csv, export_row],
    by simp [export_csv, export_row], by simp [export_csv, export_row],
    by simp [export_csv, export_row], ?_⟩
  intro hne
  obtain ⟨v, vs, rfl⟩ : ∃ v vs, view = v :: vs := by
    cases view with
    | nil => exact absurd rfl hne
    | cons v vs => exact ⟨v, vs, rfl⟩
  have hbad : parseTimestampStrict (formatTimestampCsv v.timestamp) = none :=
    parseTimestampStrict_none_of_length _
      (by rw [formatTimestampCsv_length]; decide)
  rcases parseRows_error_of_bad (export_csv (v :: vs)).rows
      ⟨export_row v, by simp [export_csv], hbad⟩ with ⟨e, he⟩
  exact ⟨e, by simp [reload_export, load_data, export_csv] at he ⊢; simp [he]⟩

theorem c6_witness : ∃ e, reload_export view6 = Except.error e :=
  (c6_round_trip_amended view6).2.2.2.2.2 (by simp [view6])

/-- C7: the high-activity threshold clause removes no rows — position `i`
of the tagged view is exactly position `i` of the input view retagged — and
the attached boolean is true exactly when the flux is present and strictly
above the threshold, false when the flux is absent, while every other field
is unchanged. -/
theorem c7_high_activity_tag (thr : ℚ) (view : List Row) :
    (tag_high_activity thr view).length = view.length ∧
    (∀ i : Nat, (tag_high_activity thr view)[i]? = view[i]?.map (tagRow thr)) ∧
    (∀ r : Row,
      ((tagRow thr r).is_high_activity = true ↔
        ∃ q, r.xrs_b_flux = some q ∧ thr < q) ∧
      (tagRow thr { r with xrs_b_flux := none }).is_high_activity = false ∧
      (tagRow thr r).timestamp = r.timestamp ∧
      (tagRow thr r).xrs_b_flux = r.xrs_b_flux ∧
      (tagRow thr r).status = r.status ∧
      (tagRow thr r).flare_class = r.flare_class ∧
      (tagRow thr r).integrated_flux = r.integrated_flux ∧
      (tagRow thr r).date = r.date) := by
  refine ⟨by simp [tag_high_activity], fun i => by simp [tag_high_activity],
    fun r => ⟨?_, by simp [tagRow], rfl, rfl, rfl, rfl, rfl, rfl⟩⟩
  cases hx : r.xrs_b_flux with
  | none => simp [tagRow, hx]
  | some f => simp [tagRow, hx]

/-- The shared sample date of the daily-rollup counterexample. -/
def d8 : Date := ⟨2022, 9, 24⟩

/-- Sample tagged row with a present flux value. -/
def row8a : Row := { row0 with xrs_b_flux := some 2, is_high_activity := true }

/-- C8, counterexample: a view with two records on the same date, one of
them with an absent flux cell, yields a daily rollup whose `count` column
(pandas non-null `count` of `xrs_b_flux`) is 1, although the view has 2
records on that date — the rollup count is not the number of records. -/
theorem c8_counterexample :
    (daily_stats [row8a, row0]).map (fun s => s.total_minutes) = [1] ∧
    ([row8a, row0].filter (fun r => r.date = d8)).length = 2 ∧
    row8a.date = d8 ∧ row0.date = d8 := by
  refine ⟨by decide, by decide, rfl, rfl⟩

/-- C8, amended: the daily rollup has exactly one row per date occurring in
the filtered view and none for any other date; the `max_flux` of that row is the
true maximum of the present `raw_flux` values on that date (absent when no
flux value is present), its high-activity count is the number of records on
that date tagged high-activity, but its `count` column is the number of
records on that date with a present `raw_flux` value, not the number of
records. -/
theorem c8_daily_rollup_amended (view : List Row) :
    ((daily_stats view).map (fun s => s.date)).Nodup ∧
    (∀ d : Date, (∃ s ∈ daily_stats view, s.date = d) ↔ ∃ r ∈ view, r.date = d) ∧
    (∀ s ∈ daily_stats view,
      s.total_minutes =
        ((view.filter (fun r => r.date = s.date)).filterMap
          (fun r => r.xrs_b_flux)).length ∧
      s.high_activity_minutes =
        ((view.filter (fun r => r.date = s.date)).filter
          (fun r => r.is_high_activity)).length ∧
      (∀ m, s.max_flux = some m →
        (∃ r ∈ view, r.date = s.date ∧ r.xrs_b_flux = some m) ∧
        ∀ r ∈ view, r.date = s.date → ∀ q, r.xrs_b_flux = some q → q ≤ m) ∧
      (s.max_flux = none → ∀ r ∈ view, r.date = s.date → r.xrs_b_flux = none)) := by
  have hdates : (daily_stats view).map (fun s => s.date) = groupDates view := by
    rw [daily_stats, List.map_map]
    have : ((fun s : DayStat => s.date) ∘ statFor view) = fun d => d := funext fun d => rfl
    rw [this, List.map_id']
  refine ⟨?_, ?_, ?_⟩
  · rw [hdates]
    exact List.nodup_dedup _
  · intro d
    constructor
    · rintro ⟨s, hs, rfl⟩
      have : s.date ∈ groupDates view := by
        rw [← hdates]
        exact List.mem_map_of_mem (fun s => s.date) hs
      rw [groupDates, List.mem_dedup] at this
      exact List.mem_map.mp this
    · rintro ⟨r, hr, rfl⟩
      have hd : r.date ∈ groupDates view := by
        rw [groupDates, List.mem_dedup]
        exact List.mem_map_of_mem (fun x => x.date) hr
      exact ⟨statFor view r.date, List.mem_map_of_mem (statFor view) hd, rfl⟩
  · intro s hs
    obtain ⟨d, _, rfl⟩ := List.mem_map.mp hs
    refine ⟨rfl, rfl, ?_, ?_⟩
    · intro m hm
      have hspec := maxQ_spec _ m hm
      constructor
      · rcases List.mem_filterMap.mp hspec.1 with ⟨r, hr, hflux⟩
        have hr2 := List.mem_filter.mp hr
        exact ⟨r, hr2.1, by simpa using hr2.2, hflux⟩
      · intro r hr hdate q hq
        refine hspec.2 q (List.mem_filterMap.mpr ⟨r, ?_, hq⟩)
        exact List.mem_filter.mpr ⟨hr, by simpa using hdate⟩
    · intro hm r hr hdate
      have hnil := maxQ_eq_none _ hm
      have := List.filterMap_eq_nil_iff.mp hnil r
        (List.mem_filter.mpr ⟨hr, by simpa using hdate⟩)
      exact this

theorem c8_witness :
    ∃ s ∈ daily_stats [row8a, row0], s.date = d8 :=
  ((c8_daily_rollup_amended [row8a, row0]).2.1 d8).mpr ⟨row8a, by decide, by decide⟩

/-- C9: the filter pipeline never mutates the canonical table — in the
store-of-frames model the frame at index 0 (the canonical table) is
unchanged after the whole pipeline runs, the returned view lives at a
different index (each boolean-mask selection allocates a fresh frame, and
the in-place `is_high_activity` column assignment targets only the
`df_filtered` frame), and that view is the tagged result of the date and
class clauses. -/
theorem c9_no_mutation (df : List Row) (cfg : FilterConfig) :
    (run_filter_pipeline df cfg).1.getD 0 [] = df ∧
    (run_filter_pipeline df cfg).2 ≠ 0 ∧
    (run_filter_pipeline df cfg).1.getD (run_filter_pipeline df cfg).2 [] =
      tag_high_activity cfg.flux_threshold
        (class_filter cfg.selected_flare
          (date_filter cfg.dateStart cfg.dateEnd df)) := by
  by_cases h : cfg.selected_flare = "All" <;>
    simp [run_filter_pipeline, h, class_filter, List.set, List.getD]

/-- C10: each filter clause is monotone — the date-range clause, the class
clause and the (spec-modelled) minimum-flux clause never increase the row
count of a view. -/
theorem c10_filter_monotone (a b : Timestamp) (sel : String) (m : ℚ)
    (view : List Row) :
    (date_filter a b view).length ≤ view.length ∧
    (class_filter sel view).length ≤ view.length ∧
    (min_flux_filter m view).length ≤ view.length := by
  refine ⟨List.length_filter_le _ _, ?_, List.length_filter_le _ _⟩
  rw [class_filter]
  split
  · exact le_refl _
  · exact List.length_filter_le _ _

end SolarFlares
